import Mathlib

/-!
Verification of the IRC status-notification client of this repository
(master/buildbot/status/irc.py) against its natural-language specification.

Strings are modelled as `List Char`; Python string operations used by the
source (`lower`, `split('!', 1)[0]`, `startswith`, the `in` substring test,
`encode('utf-8', 'replace')`) are translated into executable Lean functions
below.  Side-effecting methods are translated into pure functions returning
an updated state together with a list of emitted effects.
-/

namespace BuildbotIrc

/-- Python strings, modelled as lists of unicode characters. -/
abbrev PyStr := List Char

/-- Python `s.lower()`.  (`Char.toLower` lower-cases the ASCII range, which
covers IRC nicknames and channel names.) -/
def pyLower (s : PyStr) : PyStr := s.map Char.toLower

/-- Python `s.split('!', 1)[0]`: everything before the first `'!'`
(the whole string when there is no `'!'`). -/
def pySplitBangHead (s : PyStr) : PyStr := s.takeWhile (fun c => c ≠ '!')

/-- Python `s.startswith(pre)`. -/
def pyStartsWith : PyStr → PyStr → Bool
  | [], _ => true
  | _ :: _, [] => false
  | p :: ps, c :: cs => p = c && pyStartsWith ps cs

/-- Python `needle in haystack` (substring containment). -/
def pyStrContains (needle : PyStr) : PyStr → Bool
  | [] => needle.isEmpty
  | c :: rest => pyStartsWith needle (c :: rest) || pyStrContains needle rest

/-- UTF-8 encoding of one character, as the list of its bytes. -/
def utf8Bytes (c : Char) : List Nat :=
  let n := c.toNat
  if n < 0x80 then [n]
  else if n < 0x800 then
    [0xC0 ||| (n >>> 6), 0x80 ||| (n &&& 0x3F)]
  else if n < 0x10000 then
    [0xE0 ||| (n >>> 12), 0x80 ||| ((n >>> 6) &&& 0x3F), 0x80 ||| (n &&& 0x3F)]
  else
    [0xF0 ||| (n >>> 18), 0x80 ||| ((n >>> 12) &&& 0x3F),
     0x80 ||| ((n >>> 6) &&& 0x3F), 0x80 ||| (n &&& 0x3F)]

/-- Python `s.encode('utf-8', 'replace')`.  A Lean `Char` is always a valid
unicode scalar value, so the `'replace'` policy never fires and the result is
the plain UTF-8 byte sequence. -/
def utf8Encode (s : PyStr) : List Nat := s.flatMap utf8Bytes

/-- Payload of an outbound send: either a raw string handed to the protocol
layer unencoded, or an explicitly UTF-8-encoded byte string. -/
inductive Payload where
  | raw (s : PyStr)
  | utf8 (b : List Nat)
deriving DecidableEq

/-- One observable effect of a bot method: a call into the external protocol
library or logging layer. -/
inductive Effect where
  | notice (channel : PyStr) (payload : Payload)
  | message (target : PyStr) (payload : Payload)
  | describe (channel : PyStr) (payload : Payload)
  | join (channel : Option PyStr) (key : Option PyStr)
  | contactForced (nick : PyStr)
  | logLine (text : PyStr)
deriving DecidableEq

/-- A channel list entry: either a bare channel name or a
`{'channel': ..., 'password': ...}` dict. -/
inductive ChannelEntry where
  | bare (name : PyStr)
  | dict (channel : Option PyStr) (password : Option PyStr)
deriving DecidableEq

/-- The key of a registered Contact: the `(user, channel)` pair as passed to
`StatusBot.getContact` (after the lower-casing done by the IRC subclass). -/
abbrev ContactKey := Option PyStr × Option PyStr

/-- State of one `IrcStatusBot` instance (one Session).  Contacts are
identified by the `Nat` id under which the registry created them;
`keepAlive` is `some interval` exactly when the `LoopingCall` liveness
probe is running. -/
structure BotState where
  nickname : PyStr
  password : Option PyStr
  channels : List ChannelEntry
  pm_to_nicks : List PyStr
  noticeOnChannel : Bool
  contacts : List (ContactKey × Nat)
  nextContact : Nat
  connected : Bool
  keepAlive : Option Nat
deriving DecidableEq

/-- Look a contact key up in the registry list. -/
def findContact : List (ContactKey × Nat) → ContactKey → Option Nat
  | [], _ => none
  | (k, v) :: rest, key => if k = key then some v else findContact rest key

/-- Whether the registry of `s` holds an entry for `key`. -/
def hasContactKey (s : BotState) (user channel : Option PyStr) : Bool :=
  (findContact s.contacts (user, channel)).isSome

namespace StatusBot

/-- Modelled from the spec: `StatusBot.getContact`
(master/buildbot/status/words.py, which is not under src/).  Per §4.3 of the
spec: "if an entry already exists for that normalized key, returns it;
otherwise constructs a new Contact, registers it, and — as an unavoidable
side effect of construction — subscribes it to the relevant build-event
notifications.  Exactly one Contact per distinct normalized identity per
Session."  The returned `Nat` is the Contact instance. -/
def getContact (s : BotState) (user channel : Option PyStr) : BotState × Nat :=
  match findContact s.contacts (user, channel) with
  | some cid => (s, cid)
  | none =>
      ({ s with contacts := s.contacts ++ [((user, channel), s.nextContact)],
                nextContact := s.nextContact + 1 },
       s.nextContact)

end StatusBot

namespace IrcStatusBot

/-- `IrcStatusBot.getContact`: lower-cases any provided user / channel name
(nicknames and channel names are case insensitive) and delegates to
`StatusBot.getContact`.  (Python skips `lower()` on an empty string, which
is its own lower-casing, so `Option.map pyLower` is exact.) -/
def getContact (s : BotState) (user channel : Option PyStr) : BotState × Nat :=
  StatusBot.getContact s (user.map pyLower) (channel.map pyLower)

/-- `IrcStatusBot.groupChat(channel, message)`: the source sends a notice
when `noticeOnChannel` is set and otherwise falls through without sending
anything (there is no else branch in the code). -/
def groupChat (s : BotState) (channel message : PyStr) : List Effect :=
  if s.noticeOnChannel then
    [Effect.notice channel (Payload.utf8 (utf8Encode message))]
  else
    []

/-- `IrcStatusBot.chat(user, message)`. -/
def chat (user message : PyStr) : List Effect :=
  [Effect.message user (Payload.utf8 (utf8Encode message))]

/-- `IrcStatusBot.groupDescribe(channel, action)`. -/
def groupDescribe (channel action : PyStr) : List Effect :=
  [Effect.describe channel (Payload.utf8 (utf8Encode action))]

/-- `IrcStatusBot.privmsg(user, channel, message)`.  Returns the updated
state and, when the message is handed to `contact.handleMessage`, the
contact together with the dispatched text. -/
def privmsg (s : BotState) (user channel message : PyStr) :
    BotState × Option (Nat × PyStr) :=
  let u := pySplitBangHead user
  if channel = s.nickname then
    let r := getContact s (some u) none
    (r.1, some (r.2, message))
  else
    let r := getContact s (some u) (some channel)
    if pyStartsWith (s.nickname ++ [':']) message ||
       pyStartsWith (s.nickname ++ [',']) message then
      (r.1, some (r.2, message.drop (s.nickname ++ [':']).length))
    else
      (r.1, none)

/-- `IrcStatusBot.action(user, channel, data)`.  Returns the updated state
and, when the data is handed to `contact.handleAction`, the contact
together with the dispatched text. -/
def action (s : BotState) (user channel data : PyStr) :
    BotState × Option (Nat × PyStr) :=
  let u := pySplitBangHead user
  let r := getContact s (some u) (some channel)
  if pyStrContains s.nickname data then
    (r.1, some (r.2, data))
  else
    (r.1, none)

/-- The join command emitted for one channel list entry
(`self.join(channel=channel, key=password)`). -/
def channelJoin : ChannelEntry → Effect
  | ChannelEntry.bare name => Effect.join (some name) none
  | ChannelEntry.dict channel password => Effect.join channel password

/-- The `for c in self.pm_to_nicks: self.getContact(c)` loop of `signedOn`:
threads the registry state through the forced contact creations. -/
def forcePmContacts : BotState → List PyStr → BotState × List Effect
  | s, [] => (s, [])
  | s, c :: rest =>
      let t := getContact s (some c) none
      let r := forcePmContacts t.1 rest
      (r.1, Effect.contactForced c :: r.2)

/-- `IrcStatusBot.signedOn()`: identify to Nickserv when a password is
configured (Python truthiness: `None` and the empty string are falsy), then
join every configured channel in order, then force creation of the Contact
of every private-message target. -/
def signedOn (s : BotState) : BotState × List Effect :=
  let ident : List Effect :=
    match s.password with
    | some pw =>
        if pw.isEmpty then []
        else [Effect.message "Nickserv".data (Payload.raw ("IDENTIFY ".data ++ pw))]
    | none => []
  let joins := s.channels.map channelJoin
  let r := forcePmContacts s s.pm_to_nicks
  (r.1, ident ++ joins ++ r.2)

/-- `IrcStatusBot.connectionMade()`: the transport reports the connection
(the inherited `irc.IRCClient.connectionMade` marks the session connected)
and `self._keepAliveCall.start(60)` starts the 60-second liveness probe. -/
def connectionMade (s : BotState) : BotState :=
  { s with connected := true, keepAlive := some 60 }

/-- `IrcStatusBot.connectionLost(reason)`: stops the liveness probe when it
is running (it is absent afterwards in either case) and lets the inherited
handler mark the session disconnected. -/
def connectionLost (s : BotState) : BotState :=
  { s with connected := false, keepAlive := none }

/-- `IrcStatusBot.joined(channel)`: log, then force the channel's Contact. -/
def joined (s : BotState) (channel : PyStr) : BotState :=
  (getContact s none (some channel)).1

end IrcStatusBot

/-- An input event delivered to one `IrcStatusBot` instance. -/
inductive BotEvent where
  | connectionMade
  | connectionLost
  | signedOn
  | privmsg (user channel message : PyStr)
  | action (user channel data : PyStr)
  | joined (channel : PyStr)
deriving DecidableEq

/-- Applying one event to the bot state (dispatch and effects dropped). -/
def botStep (s : BotState) : BotEvent → BotState
  | BotEvent.connectionMade => IrcStatusBot.connectionMade s
  | BotEvent.connectionLost => IrcStatusBot.connectionLost s
  | BotEvent.signedOn => (IrcStatusBot.signedOn s).1
  | BotEvent.privmsg u c m => (IrcStatusBot.privmsg s u c m).1
  | BotEvent.action u c d => (IrcStatusBot.action s u c d).1
  | BotEvent.joined c => IrcStatusBot.joined s c

/-- Applying a sequence of events to the bot state. -/
def botRun (s : BotState) (evs : List BotEvent) : BotState :=
  evs.foldl botStep s

/-- `IrcStatusBot.__init__`: the `LoopingCall` is created but not started,
and the transport is not yet connected. -/
def mkBotState (nickname : PyStr) (password : Option PyStr)
    (channels : List ChannelEntry) (pm_to_nicks : List PyStr)
    (noticeOnChannel : Bool) : BotState :=
  { nickname := nickname, password := password, channels := channels,
    pm_to_nicks := pm_to_nicks, noticeOnChannel := noticeOnChannel,
    contacts := [], nextContact := 0, connected := false, keepAlive := none }

/-- State of one `IrcStatusFactory`: the shutdown flag and the reference to
the current protocol instance (`self.p`), when one has been built. -/
structure FactoryState where
  shuttingDown : Bool
  p : Option Nat
deriving DecidableEq

/-- An observable effect of a factory method. -/
inductive FactoryEffect where
  | quit (farewell : PyStr)
  | logLine (text : PyStr)
  | throttledConnectionLost
  | throttledConnectionFailed
deriving DecidableEq

/-- An event delivered to one `IrcStatusFactory`. -/
inductive FactoryEvent where
  | shutdown
  | buildProtocol (address : Nat)
  | clientConnectionLost
  | clientConnectionFailed
deriving DecidableEq

namespace IrcStatusFactory

/-- `IrcStatusFactory.shutdown()`: sets `shuttingDown` and, when a protocol
instance is live, tells it to quit with the farewell notice. -/
def shutdown (s : FactoryState) : FactoryState × List FactoryEffect :=
  ({ s with shuttingDown := true },
   match s.p with
   | some _ => [FactoryEffect.quit "buildmaster reconfigured: bot disconnecting".data]
   | none => [])

/-- `IrcStatusFactory.buildProtocol(address)`: constructs a protocol
instance and stores it in `self.p`. -/
def buildProtocol (s : FactoryState) (address : Nat) :
    FactoryState × List FactoryEffect :=
  ({ s with p := some address }, [])

/-- `IrcStatusFactory.clientConnectionLost`: when shutting down, only log;
otherwise invoke `ThrottledClientFactory.clientConnectionLost`
(master/buildbot/status/words.py, not under src/), which per the spec
schedules a reconnect attempt after `lostDelay`.  The
`throttledConnectionLost` effect marks that invocation. -/
def clientConnectionLost (s : FactoryState) : FactoryState × List FactoryEffect :=
  if s.shuttingDown then
    (s, [FactoryEffect.logLine "not scheduling reconnection attempt".data])
  else
    (s, [FactoryEffect.throttledConnectionLost])

/-- `IrcStatusFactory.clientConnectionFailed`: as `clientConnectionLost`,
with the throttled factory's failed-connection retry path. -/
def clientConnectionFailed (s : FactoryState) : FactoryState × List FactoryEffect :=
  if s.shuttingDown then
    (s, [FactoryEffect.logLine "not scheduling reconnection attempt".data])
  else
    (s, [FactoryEffect.throttledConnectionFailed])

end IrcStatusFactory

/-- Applying one event to the factory. -/
def factoryStep (s : FactoryState) : FactoryEvent → FactoryState × List FactoryEffect
  | FactoryEvent.shutdown => IrcStatusFactory.shutdown s
  | FactoryEvent.buildProtocol a => IrcStatusFactory.buildProtocol s a
  | FactoryEvent.clientConnectionLost => IrcStatusFactory.clientConnectionLost s
  | FactoryEvent.clientConnectionFailed => IrcStatusFactory.clientConnectionFailed s

/-- Applying a sequence of events to the factory (effects dropped). -/
def factoryRun (s : FactoryState) (evs : List FactoryEvent) : FactoryState :=
  evs.foldl (fun t e => (factoryStep t e).1) s

/-- Whether a factory effect invokes the throttled factory's reconnect
scheduling. -/
def isRetryEffect : FactoryEffect → Bool
  | FactoryEffect.throttledConnectionLost => true
  | FactoryEffect.throttledConnectionFailed => true
  | _ => false

/-- A Python value, as far as the configuration checks of `IRC.__init__`
observe it.  `pyEq` is Python `==`, under which `True == 1` and
`False == 0`. -/
inductive PyVal where
  | pybool (b : Bool)
  | pyint (n : Int)
  | pystr (s : PyStr)
  | pynone
deriving DecidableEq

/-- Python `==` on the values above: booleans compare equal to the integers
1 and 0, strings only to equal strings, `None` only to `None`. -/
def pyEq : PyVal → PyVal → Bool
  | PyVal.pybool a, PyVal.pybool b => a = b
  | PyVal.pybool a, PyVal.pyint n => (if a then (1 : Int) else 0) = n
  | PyVal.pyint n, PyVal.pybool a => n = (if a then (1 : Int) else 0)
  | PyVal.pyint m, PyVal.pyint n => m = n
  | PyVal.pystr a, PyVal.pystr b => a = b
  | PyVal.pynone, PyVal.pynone => true
  | _, _ => false

/-- Python `v in (True, False)`: membership in a tuple tests with `==`. -/
def pyInTrueFalse (v : PyVal) : Bool :=
  pyEq v (PyVal.pybool true) || pyEq v (PyVal.pybool false)

/-- The fatal errors `IRC.__init__` can raise: `config.error` calls for the
flag checks (per §7 of the spec, configuration errors are fatal at
construction and surfaced synchronously) and the `RuntimeError` raised when
`useSSL` is requested without PyOpenSSL present. -/
inductive InitError where
  | allowForceNotBool (v : PyVal)
  | allowShutdownNotBool (v : PyVal)
  | useSSLRequiresPyOpenSSL
deriving DecidableEq

/-- The service state `IRC.__init__` builds on success: the stashed
configuration and the transport kind chosen for the client service.  No
connection is attempted during construction (the TCP/SSL client services
only connect once started). -/
structure IRCState where
  allowForce : PyVal
  allowShutdown : PyVal
  useSSL : Bool
deriving DecidableEq

namespace IRC

/-- `IRC.__init__`, restricted to the validated configuration: checks
`allowForce not in (True, False)` and `allowShutdown not in (True, False)`
in that order, builds the factory, then — only if `useSSL` is truthy —
requires TLS support (`have_ssl`) before choosing the SSL transport. -/
def init (allowForce allowShutdown : PyVal) (useSSL have_ssl : Bool) :
    Except InitError IRCState :=
  if !pyInTrueFalse allowForce then
    Except.error (InitError.allowForceNotBool allowForce)
  else if !pyInTrueFalse allowShutdown then
    Except.error (InitError.allowShutdownNotBool allowShutdown)
  else if useSSL && !have_ssl then
    Except.error InitError.useSSLRequiresPyOpenSSL
  else
    Except.ok { allowForce := allowForce, allowShutdown := allowShutdown,
                useSSL := useSSL }

end IRC

/-- A concrete bot state with nickname "bb", used as a test fixture. -/
def bot0 : BotState := mkBotState "bb".data none [] [] false

/-! ### Helper lemmas -/

theorem pyStartsWith_iff (p s : PyStr) :
    pyStartsWith p s = true ↔ ∃ t, s = p ++ t := by
  induction p generalizing s with
  | nil => simp [pyStartsWith]
  | cons c cs ih =>
      cases s with
      | nil => simp [pyStartsWith]
      | cons d ds =>
          simp only [pyStartsWith, Bool.and_eq_true, decide_eq_true_eq, ih,
            List.cons_append, List.cons.injEq]
          constructor
          · rintro ⟨rfl, t, rfl⟩; exact ⟨t, rfl, rfl⟩
          · rintro ⟨t, rfl, rfl⟩; exact ⟨rfl, t, rfl⟩

theorem pyStrContains_iff (p s : PyStr) :
    pyStrContains p s = true ↔ ∃ a b, s = a ++ p ++ b := by
  induction s with
  | nil =>
      simp only [pyStrContains, List.isEmpty_iff]
      constructor
      · rintro rfl; exact ⟨[], [], rfl⟩
      · rintro ⟨a, b, h⟩
        rcases List.append_eq_nil.mp h.symm with ⟨h1, h2⟩
        exact (List.append_eq_nil.mp h1).2
  | cons c cs ih =>
      simp only [pyStrContains, Bool.or_eq_true, pyStartsWith_iff, ih]
      constructor
      · rintro (⟨t, ht⟩ | ⟨a, b, hab⟩)
        · exact ⟨[], t, by simp [ht]⟩
        · exact ⟨c :: a, b, by simp [hab]⟩
      · rintro ⟨a, b, hab⟩
        cases a with
        | nil => exact Or.inl ⟨b, by simpa using hab⟩
        | cons x xs =>
            right
            refine ⟨xs, b, ?_⟩
            have h2 : x :: (xs ++ p ++ b) = c :: cs := by simpa using hab.symm
            exact (List.cons.injEq _ _ _ _ ▸ h2).2.symm

theorem findContact_append_of_none (l : List (ContactKey × Nat)) (k : ContactKey)
    (v : Nat) (h : findContact l k = none) :
    findContact (l ++ [(k, v)]) k = some v := by
  induction l with
  | nil => simp [findContact]
  | cons e rest ih =>
      obtain ⟨ek, ev⟩ := e
      by_cases he : ek = k
      · simp [findContact, he] at h
      · simp only [findContact, he, if_false, List.cons_append] at h ⊢
        exact ih h

theorem findContact_append_isSome (l : List (ContactKey × Nat)) (k k' : ContactKey)
    (v : Nat) (h : (findContact l k').isSome = true) :
    (findContact (l ++ [(k, v)]) k').isSome = true := by
  induction l with
  | nil => simp [findContact] at h
  | cons e rest ih =>
      obtain ⟨ek, ev⟩ := e
      by_cases he : ek = k'
      · simp [findContact, he]
      · simp only [findContact, he, if_false] at h
        simp only [List.cons_append, findContact, he, if_false]
        exact ih h

theorem statusGetContact_registers (s : BotState) (u c : Option PyStr) :
    (findContact (StatusBot.getContact s u c).1.contacts (u, c)).isSome = true := by
  unfold StatusBot.getContact
  cases h : findContact s.contacts (u, c) with
  | some cid => simp [h]
  | none => simp [findContact_append_of_none _ _ _ h]

theorem statusGetContact_preserves (s : BotState) (u c : Option PyStr)
    (k : ContactKey) (h : (findContact s.contacts k).isSome = true) :
    (findContact (StatusBot.getContact s u c).1.contacts k).isSome = true := by
  unfold StatusBot.getContact
  cases hf : findContact s.contacts (u, c) with
  | some cid => simpa using h
  | none => exact findContact_append_isSome _ _ _ _ h

theorem statusGetContact_stable (s : BotState) (u c : Option PyStr) :
    StatusBot.getContact (StatusBot.getContact s u c).1 u c =
      ((StatusBot.getContact s u c).1, (StatusBot.getContact s u c).2) := by
  unfold StatusBot.getContact
  cases hf : findContact s.contacts (u, c) with
  | some cid => simp [hf]
  | none => simp [findContact_append_of_none _ _ _ hf]

theorem statusGetContact_frame (s : BotState) (u c : Option PyStr) :
    (StatusBot.getContact s u c).1.keepAlive = s.keepAlive ∧
    (StatusBot.getContact s u c).1.connected = s.connected ∧
    (StatusBot.getContact s u c).1.nickname = s.nickname := by
  unfold StatusBot.getContact
  cases hf : findContact s.contacts (u, c) <;> simp

theorem ircGetContact_frame (s : BotState) (u c : Option PyStr) :
    (IrcStatusBot.getContact s u c).1.keepAlive = s.keepAlive ∧
    (IrcStatusBot.getContact s u c).1.connected = s.connected := by
  unfold IrcStatusBot.getContact
  exact ⟨(statusGetContact_frame ..).1, (statusGetContact_frame ..).2.1⟩

theorem forcePmContacts_frame (s : BotState) (l : List PyStr) :
    (IrcStatusBot.forcePmContacts s l).1.keepAlive = s.keepAlive ∧
    (IrcStatusBot.forcePmContacts s l).1.connected = s.connected := by
  induction l generalizing s with
  | nil => simp [IrcStatusBot.forcePmContacts]
  | cons c rest ih =>
      simp only [IrcStatusBot.forcePmContacts]
      refine ⟨?_, ?_⟩
      · rw [(ih _).1, (ircGetContact_frame ..).1]
      · rw [(ih _).2, (ircGetContact_frame ..).2]

theorem privmsg_frame (s : BotState) (u c m : PyStr) :
    (IrcStatusBot.privmsg s u c m).1.keepAlive = s.keepAlive ∧
    (IrcStatusBot.privmsg s u c m).1.connected = s.connected := by
  unfold IrcStatusBot.privmsg
  by_cases h : c = s.nickname
  · simp only [if_pos h]
    exact ircGetContact_frame ..
  · simp only [if_neg h]
    by_cases hp : (pyStartsWith (s.nickname ++ [':']) m ||
        pyStartsWith (s.nickname ++ [',']) m) = true
    · simp only [if_pos hp]
      exact ircGetContact_frame ..
    · simp only [if_neg hp]
      exact ircGetContact_frame ..

theorem action_frame (s : BotState) (u c d : PyStr) :
    (IrcStatusBot.action s u c d).1.keepAlive = s.keepAlive ∧
    (IrcStatusBot.action s u c d).1.connected = s.connected := by
  unfold IrcStatusBot.action
  by_cases h : pyStrContains s.nickname d <;> simp only [h, if_true, if_false] <;>
    exact ircGetContact_frame ..

theorem signedOn_frame (s : BotState) :
    (IrcStatusBot.signedOn s).1.keepAlive = s.keepAlive ∧
    (IrcStatusBot.signedOn s).1.connected = s.connected := by
  unfold IrcStatusBot.signedOn
  exact forcePmContacts_frame ..

theorem joined_frame (s : BotState) (c : PyStr) :
    (IrcStatusBot.joined s c).keepAlive = s.keepAlive ∧
    (IrcStatusBot.joined s c).connected = s.connected := by
  unfold IrcStatusBot.joined
  exact ircGetContact_frame ..

theorem ircGetContact_registers (s : BotState) (u : PyStr) (c : Option PyStr) :
    hasContactKey (IrcStatusBot.getContact s (some u) c).1
      (some (pyLower u)) (c.map pyLower) = true := by
  unfold IrcStatusBot.getContact hasContactKey
  exact statusGetContact_registers ..

theorem ircGetContact_preserves (s : BotState) (u c : Option PyStr)
    (u' c' : Option PyStr) (h : hasContactKey s u' c' = true) :
    hasContactKey (IrcStatusBot.getContact s u c).1 u' c' = true := by
  unfold hasContactKey at h
  unfold IrcStatusBot.getContact hasContactKey
  exact statusGetContact_preserves _ _ _ _ h

theorem forcePmContacts_effects (s : BotState) (l : List PyStr) :
    (IrcStatusBot.forcePmContacts s l).2 = l.map Effect.contactForced := by
  induction l generalizing s with
  | nil => simp [IrcStatusBot.forcePmContacts]
  | cons c rest ih => simp [IrcStatusBot.forcePmContacts, ih]

theorem forcePmContacts_preserves (s : BotState) (l : List PyStr)
    (u' c' : Option PyStr) (h : hasContactKey s u' c' = true) :
    hasContactKey (IrcStatusBot.forcePmContacts s l).1 u' c' = true := by
  induction l generalizing s with
  | nil => simpa [IrcStatusBot.forcePmContacts] using h
  | cons c rest ih =>
      simp only [IrcStatusBot.forcePmContacts]
      exact ih _ (ircGetContact_preserves _ _ _ _ _ h)

theorem forcePmContacts_registers (s : BotState) (l : List PyStr)
    (c : PyStr) (hc : c ∈ l) :
    hasContactKey (IrcStatusBot.forcePmContacts s l).1 (some (pyLower c)) none = true := by
  induction l generalizing s with
  | nil => cases hc
  | cons x rest ih =>
      simp only [IrcStatusBot.forcePmContacts]
      rcases List.mem_cons.mp hc with rfl | hmem
      · exact forcePmContacts_preserves _ _ _ _
          (by simpa using ircGetContact_registers s c none)
      · exact ih _ hmem

theorem pySplitBangHead_of_no_bang (nick : PyStr) (h : '!' ∉ nick) :
    pySplitBangHead nick = nick := by
  induction nick with
  | nil => rfl
  | cons c cs ih =>
      have hc : c ≠ '!' := fun hc => h (hc ▸ List.mem_cons_self c cs)
      have hcs : '!' ∉ cs := fun hm => h (List.mem_cons_of_mem c hm)
      have ih2 := ih hcs
      simp only [pySplitBangHead] at ih2 ⊢
      simp only [ne_eq, decide_not] at ih2
      simp [List.takeWhile_cons, hc, ih2]

theorem pySplitBangHead_append_bang (nick rest : PyStr) (h : '!' ∉ nick) :
    pySplitBangHead (nick ++ '!' :: rest) = nick := by
  induction nick with
  | nil => simp [pySplitBangHead, List.takeWhile_cons]
  | cons c cs ih =>
      have hc : c ≠ '!' := fun hc => h (hc ▸ List.mem_cons_self c cs)
      have hcs : '!' ∉ cs := fun hm => h (List.mem_cons_of_mem c hm)
      have ih2 := ih hcs
      simp only [pySplitBangHead] at ih2 ⊢
      simp only [ne_eq, decide_not] at ih2
      simp [List.takeWhile_cons, hc, ih2]

theorem factoryRun_shuttingDown (s : FactoryState) (evs : List FactoryEvent)
    (h : s.shuttingDown = true) : (factoryRun s evs).shuttingDown = true := by
  induction evs generalizing s with
  | nil => simpa [factoryRun] using h
  | cons e rest ih =>
      simp only [factoryRun, List.foldl_cons]
      apply ih
      cases e with
      | shutdown => simp [factoryStep, IrcStatusFactory.shutdown]
      | buildProtocol a => simpa [factoryStep, IrcStatusFactory.buildProtocol] using h
      | clientConnectionLost =>
          simp [factoryStep, IrcStatusFactory.clientConnectionLost, h]
      | clientConnectionFailed =>
          simp [factoryStep, IrcStatusFactory.clientConnectionFailed, h]

/-- The liveness-probe invariant: the probe is scheduled, with its 60-second
interval, exactly when the session is connected. -/
def probeInv (s : BotState) : Prop :=
  s.keepAlive = (if s.connected then some 60 else none)

theorem probeInv_step (s : BotState) (e : BotEvent) (h : probeInv s) :
    probeInv (botStep s e) := by
  cases e with
  | connectionMade => simp [botStep, IrcStatusBot.connectionMade, probeInv]
  | connectionLost => simp [botStep, IrcStatusBot.connectionLost, probeInv]
  | signedOn =>
      unfold probeInv botStep
      rw [(signedOn_frame s).1, (signedOn_frame s).2]
      exact h
  | privmsg u c m =>
      unfold probeInv botStep
      rw [(privmsg_frame s u c m).1, (privmsg_frame s u c m).2]
      exact h
  | action u c d =>
      unfold probeInv botStep
      rw [(action_frame s u c d).1, (action_frame s u c d).2]
      exact h
  | joined c =>
      unfold probeInv botStep
      rw [(joined_frame s c).1, (joined_frame s c).2]
      exact h

theorem probeInv_run (s : BotState) (evs : List BotEvent) (h : probeInv s) :
    probeInv (botRun s evs) := by
  induction evs generalizing s with
  | nil => simpa [botRun] using h
  | cons e rest ih =>
      simp only [botRun, List.foldl_cons]
      exact ih _ (probeInv_step s e h)

/-! ### Claim theorems -/

/-- Claim C1 (code bug): the claim and the spec say `groupChat(channel,
message)` with `noticeOnChannel` false delivers the text as a normal
channel message, but the method body is only
`if self.noticeOnChannel: self.notice(...)` with no else branch, so with
the flag false it emits no send at all; with the flag true it does produce
the claimed notice-kind send of the text. -/
theorem groupChat_code_bug_no_plain_send :
    IrcStatusBot.groupChat (mkBotState "bb".data none [] [] true)
        "#ch".data "hello".data =
      [Effect.notice "#ch".data (Payload.utf8 (utf8Encode "hello".data))] ∧
    IrcStatusBot.groupChat (mkBotState "bb".data none [] [] false)
        "#ch".data "hello".data = [] ∧
    (mkBotState "bb".data none [] [] false).noticeOnChannel = false :=
  ⟨rfl, rfl, rfl⟩

/-- Claim C2: `shutdown()` sets the `shuttingDown` flag to true and is
idempotent on the factory state, and in every state reachable after a
shutdown — whatever events follow — `clientConnectionLost` and
`clientConnectionFailed` never invoke the throttled-factory retry path, so
no reconnect attempt is scheduled. -/
theorem shutdown_idempotent_and_suppresses_reconnect
    (s : FactoryState) (evs : List FactoryEvent) :
    (IrcStatusFactory.shutdown s).1.shuttingDown = true ∧
    (IrcStatusFactory.shutdown (IrcStatusFactory.shutdown s).1).1 =
      (IrcStatusFactory.shutdown s).1 ∧
    (factoryStep (factoryRun (IrcStatusFactory.shutdown s).1 evs)
        FactoryEvent.clientConnectionLost).2.filter isRetryEffect = [] ∧
    (factoryStep (factoryRun (IrcStatusFactory.shutdown s).1 evs)
        FactoryEvent.clientConnectionFailed).2.filter isRetryEffect = [] := by
  have h1 : (IrcStatusFactory.shutdown s).1.shuttingDown = true := rfl
  have h2 := factoryRun_shuttingDown _ evs h1
  refine ⟨h1, rfl, ?_, ?_⟩
  · simp [factoryStep, IrcStatusFactory.clientConnectionLost, h2, isRetryEffect]
  · simp [factoryStep, IrcStatusFactory.clientConnectionFailed, h2, isRetryEffect]

/-- Claim C3: for a channel message (channel different from the bot's
nickname) `privmsg` dispatches to the Contact for (sender, channel) exactly
when the message starts with the case-sensitive prefix "<nickname>:" or
"<nickname>,", and then hands over the message with the first
nickname-length-plus-one characters stripped. -/
theorem privmsg_channel_command_dispatch (s : BotState)
    (user channel message : PyStr) (h : channel ≠ s.nickname) :
    (IrcStatusBot.privmsg s user channel message).2 =
      (if pyStartsWith (s.nickname ++ [':']) message ||
          pyStartsWith (s.nickname ++ [',']) message then
        some ((IrcStatusBot.getContact s (some (pySplitBangHead user))
                (some channel)).2,
              message.drop (s.nickname.length + 1))
      else none) ∧
    ((IrcStatusBot.privmsg s user channel message).2.isSome = true ↔
      (∃ t, message = (s.nickname ++ [':']) ++ t) ∨
      (∃ t, message = (s.nickname ++ [',']) ++ t)) := by
  have hiff : ((pyStartsWith (s.nickname ++ [':']) message ||
      pyStartsWith (s.nickname ++ [',']) message) = true) ↔
      ((∃ t, message = (s.nickname ++ [':']) ++ t) ∨
       (∃ t, message = (s.nickname ++ [',']) ++ t)) := by
    rw [Bool.or_eq_true, pyStartsWith_iff, pyStartsWith_iff]
  have hlen : (s.nickname ++ [':']).length = s.nickname.length + 1 := by simp
  unfold IrcStatusBot.privmsg
  simp only [if_neg h]
  by_cases hp : (pyStartsWith (s.nickname ++ [':']) message ||
      pyStartsWith (s.nickname ++ [',']) message) = true
  · simp only [if_pos hp, hlen]
    exact ⟨trivial, by simpa using hiff.mp hp⟩
  · simp only [if_neg hp]
    refine ⟨trivial, ?_⟩
    simp only [Option.isSome_none, Bool.false_eq_true, false_iff]
    intro hr
    exact hp (hiff.mpr (by simpa using hr))

/-- Witness for C3 with nickname "bb": the channel message "bb: status"
dispatches with command text " status", and "bb status" does not dispatch. -/
theorem privmsg_channel_command_dispatch_witness :
    ("#ch".data ≠ bot0.nickname) ∧
    (IrcStatusBot.privmsg bot0 "alice".data "#ch".data "bb: status".data).2 =
      some (0, " status".data) ∧
    (IrcStatusBot.privmsg bot0 "alice".data "#ch".data "bb status".data).2 =
      none := by
  refine ⟨by decide, ?_, ?_⟩
  · have h := (privmsg_channel_command_dispatch bot0 "alice".data "#ch".data
      "bb: status".data (by decide)).1
    rw [h]; decide
  · have h := (privmsg_channel_command_dispatch bot0 "alice".data "#ch".data
      "bb status".data (by decide)).1
    rw [h]; decide

/-- Claim C4: `action` dispatches the text to the Contact for
(sender, channel) via `handleAction` exactly when the bot's nickname occurs
as a substring anywhere in the text; with nickname "bb" the action text
"waves at bb" dispatches even without an addressing prefix. -/
theorem action_substring_dispatch (s : BotState) (user channel data : PyStr) :
    (IrcStatusBot.action s user channel data).2 =
      (if pyStrContains s.nickname data then
        some ((IrcStatusBot.getContact s (some (pySplitBangHead user))
                (some channel)).2, data)
      else none) ∧
    (pyStrContains s.nickname data = true ↔
      ∃ a b, data = a ++ s.nickname ++ b) ∧
    (IrcStatusBot.action bot0 "carol".data "#ch".data "waves at bb".data).2 =
      some (0, "waves at bb".data) := by
  refine ⟨?_, pyStrContains_iff _ _, by decide⟩
  unfold IrcStatusBot.action
  by_cases hc : pyStrContains s.nickname data = true
  · simp only [if_pos hc]
  · simp only [if_neg hc]

/-- Claim C5: `getContact` lower-cases user and channel identifiers before
the registry lookup, so identifiers that differ only in letter case yield
the same Contact: equal-lowercase calls from the same state agree, and a
second call with a case variant returns the identical Contact instance
without changing the registry. -/
theorem getContact_case_insensitive (s : BotState) (u₁ u₂ : PyStr)
    (c₁ c₂ : Option PyStr) (hu : pyLower u₁ = pyLower u₂)
    (hc : c₁.map pyLower = c₂.map pyLower) :
    IrcStatusBot.getContact s (some u₁) c₁ =
      IrcStatusBot.getContact s (some u₂) c₂ ∧
    IrcStatusBot.getContact (IrcStatusBot.getContact s (some u₁) c₁).1
        (some u₂) c₂ =
      ((IrcStatusBot.getContact s (some u₁) c₁).1,
       (IrcStatusBot.getContact s (some u₁) c₁).2) := by
  have h1 : (some u₂).map pyLower = (some u₁).map pyLower := by simp [hu]
  refine ⟨?_, ?_⟩
  · unfold IrcStatusBot.getContact
    rw [h1, hc]
  · unfold IrcStatusBot.getContact
    rw [h1, ← hc]
    exact statusGetContact_stable ..

/-- Witness for C5: `getContact(user="Alice")` and `getContact(user="alice")`
are identical. -/
theorem getContact_case_insensitive_witness :
    pyLower "Alice".data = pyLower "alice".data ∧
    (IrcStatusBot.getContact bot0 (some "Alice".data) none =
       IrcStatusBot.getContact bot0 (some "alice".data) none ∧
     IrcStatusBot.getContact
         (IrcStatusBot.getContact bot0 (some "Alice".data) none).1
         (some "alice".data) none =
       ((IrcStatusBot.getContact bot0 (some "Alice".data) none).1,
        (IrcStatusBot.getContact bot0 (some "Alice".data) none).2)) :=
  ⟨by decide,
   getContact_case_insensitive bot0 "Alice".data "alice".data none none
     (by decide) rfl⟩

/-- A concrete bot state with a password, one channel and one
private-message target, used as a test fixture. -/
def botW : BotState :=
  mkBotState "bb".data (some "pw".data) [ChannelEntry.bare "#ch".data]
    ["Alice".data] false

/-- Claim C6: `signedOn()` first identifies to Nickserv when a server
password is configured, then joins the configured channels in list order
with their per-channel keys, then forces creation of a Contact for every
configured private-message target, which is then registered even though no
message was received from it. -/
theorem signedOn_order_and_pm_contacts (s : BotState) :
    (IrcStatusBot.signedOn s).2 =
      (match s.password with
       | some pw =>
           if pw.isEmpty then []
           else [Effect.message "Nickserv".data
                   (Payload.raw ("IDENTIFY ".data ++ pw))]
       | none => []) ++
      s.channels.map IrcStatusBot.channelJoin ++
      s.pm_to_nicks.map Effect.contactForced ∧
    ∀ c ∈ s.pm_to_nicks,
      hasContactKey (IrcStatusBot.signedOn s).1 (some (pyLower c)) none = true := by
  constructor
  · unfold IrcStatusBot.signedOn
    simp only [forcePmContacts_effects]
  · intro c hcmem
    unfold IrcStatusBot.signedOn
    exact forcePmContacts_registers s s.pm_to_nicks c hcmem

/-- Witness for C6: after `signedOn` on a state with private-message target
"Alice", its Contact is registered. -/
theorem signedOn_order_and_pm_contacts_witness :
    ("Alice".data ∈ botW.pm_to_nicks) ∧
    hasContactKey (IrcStatusBot.signedOn botW).1
      (some (pyLower "Alice".data)) none = true :=
  ⟨by decide,
   (signedOn_order_and_pm_contacts botW).2 "Alice".data (by decide)⟩

/-- Claim C7: `connectionMade` starts the 60-time-unit liveness probe,
`connectionLost` always cancels it, and over every event trace from a
freshly constructed bot the probe is scheduled (with interval 60) exactly
while the session is connected, so the timer never survives the
connection. -/
theorem keepAlive_runs_iff_connected (s : BotState) (nickname : PyStr)
    (password : Option PyStr) (channels : List ChannelEntry)
    (pms : List PyStr) (flag : Bool) (evs : List BotEvent) :
    (IrcStatusBot.connectionMade s).keepAlive = some 60 ∧
    (IrcStatusBot.connectionMade s).connected = true ∧
    (IrcStatusBot.connectionLost s).keepAlive = none ∧
    (IrcStatusBot.connectionLost s).connected = false ∧
    (botRun (mkBotState nickname password channels pms flag) evs).keepAlive =
      (if (botRun (mkBotState nickname password channels pms flag) evs).connected
       then some 60 else none) := by
  refine ⟨rfl, rfl, rfl, rfl, ?_⟩
  have h0 : probeInv (mkBotState nickname password channels pms flag) := by
    simp [probeInv, mkBotState]
  exact probeInv_run _ evs h0

/-- Claim C8 counterexample: the check `allowForce not in (True, False)`
uses Python `==`, under which `1 == True`, so constructing the service with
the non-boolean integer 1 as `allowForce` raises no configuration error. -/
theorem init_accepts_nonbool_int_one :
    (IRC.init (PyVal.pyint 1) (PyVal.pybool false) false true).isOk = true ∧
    PyVal.pyint 1 ≠ PyVal.pybool true ∧ PyVal.pyint 1 ≠ PyVal.pybool false := by
  decide

/-- Claim C8 amended: construction fails fatally, before any network
activity, exactly when `allowForce` or `allowShutdown` is not Python-equal
(`==`) to True or False — numeric values such as 1 or 0 compare equal to
the booleans and pass — or when `useSSL` is requested without TLS support;
the three checks fire in that order. -/
theorem init_validation_amended (v w : PyVal) (ssl hssl : Bool) :
    (IRC.init v w ssl hssl).isOk =
      (pyInTrueFalse v && pyInTrueFalse w && (!ssl || hssl)) ∧
    (pyInTrueFalse v = false →
      IRC.init v w ssl hssl = Except.error (InitError.allowForceNotBool v)) ∧
    (pyInTrueFalse v = true → pyInTrueFalse w = false →
      IRC.init v w ssl hssl = Except.error (InitError.allowShutdownNotBool w)) ∧
    (pyInTrueFalse v = true → pyInTrueFalse w = true → ssl = true →
      hssl = false →
      IRC.init v w ssl hssl = Except.error InitError.useSSLRequiresPyOpenSSL) := by
  unfold IRC.init
  cases hv : pyInTrueFalse v <;> cases hw : pyInTrueFalse w <;>
    cases ssl <;> cases hssl <;> simp [Except.isOk, Except.toBool]

/-- Witness for the amended C8: a string value for `allowForce` is rejected
with the allowForce configuration error. -/
theorem init_validation_amended_witness :
    IRC.init (PyVal.pystr "yes".data) (PyVal.pybool true) false true =
      Except.error (InitError.allowForceNotBool (PyVal.pystr "yes".data)) :=
  (init_validation_amended (PyVal.pystr "yes".data) (PyVal.pybool true)
    false true).2.1 (by decide)

/-- Claim C9: for a channel message, `privmsg` resolves (and thereby
registers) the Contact for (sender, channel) whether or not the message
matches the addressing prefix and is dispatched. -/
theorem privmsg_resolves_contact_without_dispatch (s : BotState)
    (user channel message : PyStr) (h : channel ≠ s.nickname) :
    (IrcStatusBot.privmsg s user channel message).1 =
      (IrcStatusBot.getContact s (some (pySplitBangHead user))
        (some channel)).1 ∧
    hasContactKey (IrcStatusBot.privmsg s user channel message).1
      (some (pyLower (pySplitBangHead user))) (some (pyLower channel)) = true := by
  have hstate : (IrcStatusBot.privmsg s user channel message).1 =
      (IrcStatusBot.getContact s (some (pySplitBangHead user))
        (some channel)).1 := by
    unfold IrcStatusBot.privmsg
    simp only [if_neg h]
    by_cases hp : (pyStartsWith (s.nickname ++ [':']) message ||
        pyStartsWith (s.nickname ++ [',']) message) = true
    · simp only [if_pos hp]
    · simp only [if_neg hp]
  refine ⟨hstate, ?_⟩
  rw [hstate]
  simpa using ircGetContact_registers s (pySplitBangHead user) (some channel)

/-- Witness for C9: the non-matching channel message "bb status" is not
dispatched, yet the Contact for (alice, #ch) gets registered. -/
theorem privmsg_resolves_contact_without_dispatch_witness :
    ("#ch".data ≠ bot0.nickname) ∧
    (IrcStatusBot.privmsg bot0 "alice".data "#ch".data "bb status".data).2 =
      none ∧
    hasContactKey
      (IrcStatusBot.privmsg bot0 "alice".data "#ch".data "bb status".data).1
      (some (pyLower (pySplitBangHead "alice".data)))
      (some (pyLower "#ch".data)) = true :=
  ⟨by decide, by decide,
   (privmsg_resolves_contact_without_dispatch bot0 "alice".data "#ch".data
     "bb status".data (by decide)).2⟩

/-- Claim C10: both `privmsg` and `action` truncate the sender at the first
'!' before any Contact resolution or dispatch, so "nick!~user@host" behaves
exactly like plain "nick". -/
theorem sender_truncated_at_bang (s : BotState)
    (nick rest channel message data : PyStr) (h : '!' ∉ nick) :
    IrcStatusBot.privmsg s (nick ++ '!' :: rest) channel message =
      IrcStatusBot.privmsg s nick channel message ∧
    IrcStatusBot.action s (nick ++ '!' :: rest) channel data =
      IrcStatusBot.action s nick channel data := by
  have h1 := pySplitBangHead_append_bang nick rest h
  have h2 := pySplitBangHead_of_no_bang nick h
  constructor
  · unfold IrcStatusBot.privmsg
    simp only [h1, h2]
  · unfold IrcStatusBot.action
    simp only [h1, h2]

/-- Witness for C10: the sender "carol!~u@host" resolves and dispatches as
plain "carol". -/
theorem sender_truncated_at_bang_witness :
    ('!' ∉ "carol".data) ∧
    IrcStatusBot.privmsg bot0 ("carol".data ++ '!' :: "~u@host".data)
        "#ch".data "bb: hi".data =
      IrcStatusBot.privmsg bot0 "carol".data "#ch".data "bb: hi".data ∧
    IrcStatusBot.action bot0 ("carol".data ++ '!' :: "~u@host".data)
        "#ch".data "waves at bb".data =
      IrcStatusBot.action bot0 "carol".data "#ch".data "waves at bb".data := by
  have h := sender_truncated_at_bang bot0 "carol".data "~u@host".data
    "#ch".data "bb: hi".data "waves at bb".data (by decide)
  exact ⟨by decide, h.1, h.2⟩

